import Mathlib

/-!
Verification development for the Saturnina backend order workflow
(`app/routers/orders.py`) and the review-creation guard
(`app/routers/comments.py`).

The Python route handlers are shallowly embedded as pure Lean functions:
* dynamic JSON payload values become the inductive `PyVal` (Python truthiness,
  `or`-chains, `int()` / `float()` conversions are modelled explicitly);
* the database session becomes an explicit `DB` state record; the
  `async with db.begin()` transaction block becomes an `Except`-valued body
  whose failure leaves the state unchanged;
* monetary values (`Numeric` columns, Python floats used as plain decimal
  carriers) are modelled as `Rat`;
* timestamps become logical `Nat` clocks; `isoformat()` becomes `toString`.
-/

/-- A dynamic Python/JSON scalar value as it appears in request payloads and
in loosely typed ORM columns. `vNone` stands for Python `None` (and SQL NULL). -/
inductive PyVal where
  | vNone : PyVal
  | vBool : Bool → PyVal
  | vInt : Int → PyVal
  | vRat : Rat → PyVal
  | vStr : String → PyVal
deriving DecidableEq

/-- A payload dictionary: association list of string keys to scalar values.
Duplicate keys are resolved to the first occurrence. -/
abbrev PyDict := List (String × PyVal)

/-- Python truthiness of a scalar value (`bool(v)`). -/
def truthy : PyVal → Bool
  | .vNone => false
  | .vBool b => b
  | .vInt n => decide (n ≠ 0)
  | .vRat q => decide (q ≠ 0)
  | .vStr s => decide (s ≠ "")

/-- Python `a or b`: returns `a` when truthy, otherwise `b` (whatever it is). -/
def pyOr (a b : PyVal) : PyVal := if truthy a then a else b

/-- `payload.get(k)`: the first value stored at key `k`, or `None` when the
key is absent. (A key stored with value `None` is indistinguishable from an
absent key through `.get`, exactly as in Python.) -/
def pyGet (d : PyDict) (k : String) : PyVal :=
  match d.find? (fun kv => kv.1 == k) with
  | some kv => kv.2
  | none => .vNone

/-- `k in payload`: key presence, which Python distinguishes from `.get`. -/
def hasKey (d : PyDict) (k : String) : Bool :=
  (d.find? (fun kv => kv.1 == k)).isSome

/-- Accumulating decimal-digit reader over a character list. -/
def natOfDigitsAux (acc : Nat) : List Char → Option Nat
  | [] => some acc
  | c :: cs => if c.isDigit then natOfDigitsAux (acc * 10 + (c.toNat - 48)) cs else none

/-- The value of a nonempty all-digit character list, `none` otherwise
(mirrors `str.isdigit()` followed by `int(...)`). -/
def natDigits? : List Char → Option Nat
  | [] => none
  | l => natOfDigitsAux 0 l

/-- Python `int()` on a string: optionally signed decimal digits. -/
def strToInt? (s : String) : Option Int :=
  match s.toList with
  | [] => none
  | '-' :: rest => (natDigits? rest).map (fun n => -(n : Int))
  | '+' :: rest => (natDigits? rest).map (fun n => (n : Int))
  | l => (natDigits? l).map (fun n => (n : Int))

/-- Python `int()` applied to a dynamic value; `none` models a raised
`TypeError`/`ValueError`. Floats truncate toward zero; strings must be
(optionally signed) integer literals. -/
def pyInt : PyVal → Option Int
  | .vNone => none
  | .vBool b => some (if b then 1 else 0)
  | .vInt n => some n
  | .vRat q => some (q.num.tdiv (q.den : Int))
  | .vStr s => strToInt? s

/-- Split a character list at its only dot, if any; `none` when more than
one dot occurs. -/
def splitDot : List Char → Option (List Char × Option (List Char))
  | [] => some ([], none)
  | '.' :: rest => if rest.contains '.' then none else some ([], some rest)
  | c :: rest => (splitDot rest).map (fun p => (c :: p.1, p.2))

/-- Value of an unsigned decimal string given as integer and optional
fractional digit parts (`"12"`, `"12.5"`, `".5"`, `"5."`). -/
def decFromParts (ip : List Char) (fp : Option (List Char)) : Option Rat :=
  match fp with
  | none => (natDigits? ip).map (fun n => (n : Rat))
  | some f =>
    if ip.isEmpty ∧ f.isEmpty then none
    else
      let ipart : Option Nat := if ip.isEmpty then some 0 else natDigits? ip
      let fnum : Option Nat := if f.isEmpty then some 0 else natDigits? f
      match ipart, fnum with
      | some n, some m => some (mkRat (n * 10 ^ f.length + m) (10 ^ f.length))
      | _, _ => none

/-- Decimal-string parsing for Python `float()` (sign, digits, optional
fractional part; exponent forms and whitespace are outside the model). -/
def decStrToRat (s : String) : Option Rat :=
  match s.toList with
  | [] => none
  | '-' :: rest => ((splitDot rest).bind (fun p => decFromParts p.1 p.2)).map (fun q => -q)
  | '+' :: rest => (splitDot rest).bind (fun p => decFromParts p.1 p.2)
  | l => (splitDot l).bind (fun p => decFromParts p.1 p.2)

/-- Python `float()` applied to a dynamic value; `none` models a raised error. -/
def pyFloat : PyVal → Option Rat
  | .vNone => none
  | .vBool b => some (if b then 1 else 0)
  | .vInt n => some (n : Rat)
  | .vRat q => some q
  | .vStr s => decStrToRat s

/-- Python `str()` of a dynamic value (total). -/
def pyStr : PyVal → String
  | .vNone => "None"
  | .vBool b => if b then "True" else "False"
  | .vInt n => toString n
  | .vRat q => toString q
  | .vStr s => s

/-- `app/models/product.py` `Product` row. `price` is `Numeric(10,2)
nullable=False`, hence total here. -/
structure ProductRow where
  id : Int
  name : String
  price : Rat
  description : Option String
  stock : Int
  category_id : Option Int
deriving DecidableEq

/-- `app/models/product.py` `ProductImage` row. `created_at` is the logical
upload timestamp (column default `datetime.utcnow`, never NULL in the model). -/
structure ProductImageRow where
  id : Int
  product_id : Int
  image_url : String
  is_main : Bool
  created_at : Nat
deriving DecidableEq

/-- `app/models/orders.py` `Order` row. The loosely typed text columns that
`create_order`/`update_order` fill directly from payload values are kept as
`PyVal` (with `vNone` for NULL); `image_transaccion` is the stored receipt
URL text or NULL. -/
structure OrderRow where
  id : Int
  user_id : Int
  total : Rat
  status : PyVal
  nombre : PyVal
  apellido : PyVal
  direccion : PyVal
  email : PyVal
  telefono : PyVal
  descripcion : PyVal
  image_transaccion : Option String
  created_at : Nat
deriving DecidableEq

/-- `app/models/orders.py` `OrderItem` row. -/
structure OrderItemRow where
  id : Int
  order_id : Int
  product_id : Int
  quantity : Int
  price : Rat
  talla : PyVal
  color : PyVal
deriving DecidableEq

/-- `app/models/comment.py` `Comment` row. -/
structure CommentRow where
  id : Int
  user_id : Int
  product_id : Option Int
  rating : Int
  comment : String
  created_at : Nat
deriving DecidableEq

/-- The relational state seen by one request: the tables the order and
comment routers touch, the id sequences, and a logical clock standing for
`func.now()` / `datetime.utcnow`. -/
structure DB where
  orders : List OrderRow
  order_items : List OrderItemRow
  products : List ProductRow
  product_images : List ProductImageRow
  comments : List CommentRow
  nextOrderId : Int
  nextItemId : Int
  nextCommentId : Int
  clock : Nat
deriving DecidableEq

/-- `select(Product).where(Product.id == pid)` + `scalar_one_or_none()`. -/
def lookupProduct (prods : List ProductRow) (pid : Int) : Option ProductRow :=
  prods.find? (fun p => p.id == pid)

/-- `select(OrderItem).where(OrderItem.order_id == oid)`. -/
def itemsOfOrder (db : DB) (oid : Int) : List OrderItemRow :=
  db.order_items.filter (fun it => it.order_id == oid)

/-- `select(ProductImage).where(ProductImage.product_id == pid)`. -/
def imagesOfProduct (db : DB) (pid : Int) : List ProductImageRow :=
  db.product_images.filter (fun img => img.product_id == pid)

/-- No duplicates in a list of ids (executable). -/
def noDupIds : List Int → Bool
  | [] => true
  | x :: xs => xs.all (fun y => !(y == x)) && noDupIds xs

/-- Well-formedness of the database state: order ids are unique and below the
next sequence value, and product ids are unique (so `scalar_one_or_none`
lookups are well defined). -/
def DB.wf (db : DB) : Bool :=
  noDupIds (db.orders.map (fun o => o.id)) &&
  db.orders.all (fun o => decide (o.id < db.nextOrderId)) &&
  noDupIds (db.products.map (fun p => p.id))

/-- The source literal the specification calls the `pending` status. -/
def pendingStatus : String := "pendiente"

/-- The source literal the specification calls the `in_delivery` status. -/
def inDeliveryStatus : String := "en entrega"

/-- The source literal the specification calls the `finalized` status. -/
def finalizedStatus : String := "finalizado"

/-- The three meaningful order status values named in the specification. -/
def meaningfulStatuses : List String :=
  [pendingStatus, inDeliveryStatus, finalizedStatus]

/-- Image entry of the nested product snapshot
(`format_product_for_order`, one element of `"imagen"`). -/
structure ImageSnap where
  id : Int
  secure_url : String
  public_id : String
  main : Bool
  created_at : Option String
deriving DecidableEq

/-- Nested product snapshot shape produced by `format_product_for_order`. -/
structure ProductSnap where
  id : Int
  name : String
  precio : Option Rat
  imagen : List ImageSnap
  descripcion : Option String
  stock : Option Int
  category : Option Int
deriving DecidableEq

/-- Nested `"id_orden"` object of a flattened order row. The receipt image is
normalized to `{"secure_url": url}`, represented here by the url itself. -/
structure OrderMeta where
  nombre : PyVal
  apellido : PyVal
  email : PyVal
  telefono : PyVal
  direccion : PyVal
  descripcion : PyVal
  image_transaccion : Option String
deriving DecidableEq

/-- One flattened order row (`fila`) of the read model: order meta + product
snapshot + item data, exactly the dict shape built in `orders.py`. -/
structure Fila where
  id : Int
  fecha : Option String
  status : PyVal
  id_producto : Option ProductSnap
  id_orden : OrderMeta
  talla : PyVal
  color : PyVal
  cantidad : Option Int
  precio : Option Rat
  order_item_id : Int
deriving DecidableEq

/-- Sort key order of `sorted(images, key=lambda x: (not is_main, created_at))`:
main images first, then ascending upload time. -/
def imgKeyLt (a b : ProductImageRow) : Bool :=
  let ka : Nat := if a.is_main then 0 else 1
  let kb : Nat := if b.is_main then 0 else 1
  decide (ka < kb) || (decide (ka = kb) && decide (a.created_at < b.created_at))

/-- Stable insertion into an already key-sorted list (`x` goes after every
element with a key not greater than its own). -/
def imgInsert (x : ProductImageRow) : List ProductImageRow → List ProductImageRow
  | [] => [x]
  | y :: ys => if imgKeyLt y x then y :: imgInsert x ys else x :: y :: ys

/-- Stable sort of the image list, modelling Python `sorted` with the
`(not is_main, created_at)` key. -/
def imgSort : List ProductImageRow → List ProductImageRow
  | [] => []
  | x :: xs => imgInsert x (imgSort xs)

/-- `format_product_for_order` of `orders.py` applied to a present product:
the nested snapshot the frontend expects inside order rows. (Call sites wrap
the absent-product case, mirroring `if prod else None`.) -/
def format_product_for_order (p : ProductRow) (imgs : List ProductImageRow) : ProductSnap :=
  { id := p.id
    name := p.name
    precio := some p.price
    imagen := (imgSort imgs).map (fun img =>
      { id := img.id
        secure_url := img.image_url
        public_id := "temp_" ++ toString img.id
        main := img.is_main
        created_at := some (toString img.created_at) })
    descripcion := p.description
    stock := some p.stock
    category := p.category_id }

/-- The `"id_orden"` object as assembled inside `build_order_items_response`.
The stored receipt is a text column, so the `isinstance(img_tx, str)` branch
applies whenever the value is non-NULL; Python string truthiness makes an
empty stored url behave like NULL. -/
def metaOfOrderBuild (o : OrderRow) : OrderMeta :=
  { nombre := o.nombre
    apellido := o.apellido
    email := o.email
    telefono := o.telefono
    direccion := o.direccion
    descripcion := o.descripcion
    image_transaccion :=
      match o.image_transaccion with
      | some s => if s = "" then none else some s
      | none => none }

/-- The `"id_orden"` object as assembled inline inside `get_order`
(`{"secure_url": x} if x else None`). -/
def metaOfOrderGet (o : OrderRow) : OrderMeta :=
  { nombre := o.nombre
    apellido := o.apellido
    email := o.email
    telefono := o.telefono
    direccion := o.direccion
    descripcion := o.descripcion
    image_transaccion :=
      match o.image_transaccion with
      | some s => if s = "" then none else some s
      | none => none }

/-- One flattened row as built in the loop of `build_order_items_response`. -/
def filaOfItemBuild (db : DB) (o : OrderRow) (it : OrderItemRow) : Fila :=
  { id := o.id
    fecha := some (toString o.created_at)
    status := o.status
    id_producto :=
      match lookupProduct db.products it.product_id with
      | some p => some (format_product_for_order p (imagesOfProduct db p.id))
      | none => none
    id_orden := metaOfOrderBuild o
    talla := it.talla
    color := it.color
    cantidad := some it.quantity
    precio := some it.price
    order_item_id := it.id }

/-- One flattened row as built in the loop of `get_order`. -/
def filaOfItemGet (db : DB) (o : OrderRow) (it : OrderItemRow) : Fila :=
  { id := o.id
    fecha := some (toString o.created_at)
    status := o.status
    id_producto :=
      match lookupProduct db.products it.product_id with
      | some p => some (format_product_for_order p (imagesOfProduct db p.id))
      | none => none
    id_orden := metaOfOrderGet o
    talla := it.talla
    color := it.color
    cantidad := some it.quantity
    precio := some it.price
    order_item_id := it.id }

/-- Descending-`created_at` insertion (`order_by(Order.created_at.desc())`),
stable for equal timestamps. -/
def orderInsertDesc (x : OrderRow) : List OrderRow → List OrderRow
  | [] => [x]
  | y :: ys => if decide (x.created_at < y.created_at) then y :: orderInsertDesc x ys
               else x :: y :: ys

/-- Orders sorted newest-created first. -/
def ordersByCreatedDesc : List OrderRow → List OrderRow
  | [] => []
  | x :: xs => orderInsertDesc x (ordersByCreatedDesc xs)

/-- `build_order_items_response` of `orders.py`: one flattened row per
`OrderItem`, orders iterated newest first, items in table order. -/
def build_order_items_response (db : DB) : List Fila :=
  (ordersByCreatedDesc db.orders).flatMap (fun o =>
    (itemsOfOrder db o.id).map (filaOfItemBuild db o))

/-- Result of `GET /orders/{order_id}`. -/
inductive GetOrderResult where
  | ok : List Fila → GetOrderResult
  | notFound : GetOrderResult
deriving DecidableEq

/-- `get_order` of `orders.py`: 404 when the order id is absent, otherwise
one flattened row per item of that order. -/
def get_order (db : DB) (oid : Int) : GetOrderResult :=
  match db.orders.find? (fun o => o.id == oid) with
  | none => .notFound
  | some o => .ok ((itemsOfOrder db o.id).map (filaOfItemGet db o))

/-- An uploaded receipt file, reduced to the data the handler inspects:
the lower-cased filename suffix (`Path(file.filename).suffix.lower()`). -/
structure UploadFile where
  ext : String
deriving DecidableEq

/-- A `POST /order` request after content-type handling: the scalar payload
keys, the raw `products` / `items` list fields (`none` = key absent), and the
optional receipt upload. -/
structure CreateReq where
  fields : PyDict
  productsField : Option (List PyDict)
  itemsField : Option (List PyDict)
  transfer : Option UploadFile
deriving DecidableEq

/-- `payload.get("user_id") or payload.get("userId") or payload.get("user")`. -/
def resolveUserId (d : PyDict) : PyVal :=
  pyOr (pyGet d "user_id") (pyOr (pyGet d "userId") (pyGet d "user"))

/-- `payload.get("price_order") or payload.get("price") or payload.get("total")`. -/
def resolvePriceOrder (d : PyDict) : PyVal :=
  pyOr (pyGet d "price_order") (pyOr (pyGet d "price") (pyGet d "total"))

/-- One step of the list-valued `or`-chain: an absent key or an empty list is
falsy and falls through. -/
def orElseList (a : Option (List PyDict)) (rest : List PyDict) : List PyDict :=
  match a with
  | some l => if l.isEmpty then rest else l
  | none => rest

/-- `payload.get("products") or payload.get("items") or []`. -/
def resolveProducts (req : CreateReq) : List PyDict :=
  orElseList req.productsField (orElseList req.itemsField [])

/-- `prod.get("id_producto") or prod.get("id") or prod.get("product_id")`. -/
def linePid (line : PyDict) : PyVal :=
  pyOr (pyGet line "id_producto") (pyOr (pyGet line "id") (pyGet line "product_id"))

/-- `prod.get("cantidad") or prod.get("quantity") or 1`. -/
def lineCantidad (line : PyDict) : PyVal :=
  pyOr (pyGet line "cantidad") (pyOr (pyGet line "quantity") (.vInt 1))

/-- `prod.get("talla") if "talla" in prod else prod.get("size")` (key presence,
not truthiness). -/
def lineTalla (line : PyDict) : PyVal :=
  if hasKey line "talla" then pyGet line "talla" else pyGet line "size"

/-- `prod.get("color") if "color" in prod else prod.get("colour")`. -/
def lineColor (line : PyDict) : PyVal :=
  if hasKey line "color" then pyGet line "color" else pyGet line "colour"

/-- `prod.get("precio") or prod.get("price") or 0`: the client-side fallback
unit price used only when the referenced product is not found. -/
def lineClientPrice (line : PyDict) : PyVal :=
  pyOr (pyGet line "precio") (pyOr (pyGet line "price") (.vInt 0))

/-- Item data computed for one line of the create-order loop. -/
structure ItemData where
  product_id : Int
  quantity : Int
  price : Rat
  talla : PyVal
  color : PyVal
deriving DecidableEq

/-- The authoritative unit price for a line referencing product `pid`: the
product's current price when the product is found, otherwise the converted
client-supplied fallback (`float(prod.get("precio") or prod.get("price") or 0)`). -/
def linePrice? (prods : List ProductRow) (line : PyDict) (pid : Int) : Option Rat :=
  match lookupProduct prods pid with
  | some p => some p.price
  | none => pyFloat (lineClientPrice line)

/-- One iteration of the item loop in `create_order`: `ok none` models the
`continue` on a falsy product id; `error` models a raised conversion error
(which aborts the whole transaction). Evaluation order follows the source:
`int(prod_id)` at the product query, then the price resolution, then
`int(cantidad)` at the `OrderItem` construction. -/
def processLine (prods : List ProductRow) (line : PyDict) : Except Unit (Option ItemData) :=
  if truthy (linePid line) = false then .ok none
  else
    match pyInt (linePid line) with
    | none => .error ()
    | some pid =>
      match linePrice? prods line pid with
      | none => .error ()
      | some pr =>
        match pyInt (lineCantidad line) with
        | none => .error ()
        | some qty =>
          .ok (some { product_id := pid, quantity := qty, price := pr,
                      talla := lineTalla line, color := lineColor line })

/-- The whole item loop: builds the `OrderItem` rows for the new order with
consecutive ids, skipping falsy-id lines, aborting on the first raised error. -/
def buildItems (prods : List ProductRow) (oid : Int) (startId : Int) :
    List PyDict → Except Unit (List OrderItemRow)
  | [] => .ok []
  | line :: rest =>
    match processLine prods line with
    | .error _ => .error ()
    | .ok none => buildItems prods oid startId rest
    | .ok (some d) =>
      match buildItems prods oid (startId + 1) rest with
      | .error _ => .error ()
      | .ok tail =>
        .ok ({ id := startId, order_id := oid, product_id := d.product_id,
               quantity := d.quantity, price := d.price,
               talla := d.talla, color := d.color } :: tail)

/-- The `Order` row `create_order` constructs inside the transaction: status
`"pendiente"`, the payload-supplied shipping/contact columns (`setattr` only
for present, non-`None` keys — which coincides with `pyGet` because NULL is
the column default), and the receipt url when present and truthy. -/
def mkNewOrder (db : DB) (u : Int) (t : Rat) (fields : PyDict)
    (imageUrl : Option String) : OrderRow :=
  { id := db.nextOrderId
    user_id := u
    total := t
    status := .vStr pendingStatus
    nombre := pyGet fields "nombre"
    apellido := pyGet fields "apellido"
    direccion := pyGet fields "direccion"
    email := pyGet fields "email"
    telefono := pyGet fields "telefono"
    descripcion := pyGet fields "descripcion"
    image_transaccion :=
      match imageUrl with
      | some u2 => if u2 = "" then none else some u2
      | none => none
    created_at := db.clock }

/-- The post-commit state of a successful create-order transaction. -/
def commitOrderTx (db : DB) (o : OrderRow) (its : List OrderItemRow) : DB :=
  { db with
      orders := db.orders ++ [o]
      order_items := db.order_items ++ its
      nextOrderId := db.nextOrderId + 1
      nextItemId := db.nextItemId + its.length
      clock := db.clock + 1 }

/-- The body of the `async with db.begin()` block of `create_order`:
`int(user_id)` / `float(price_order)` conversions, the new `Order` row, then
the item loop. `error` models any exception raised inside the block (the
transaction then rolls back and the session state is unchanged). -/
def createOrderTx (db : DB) (uid priceOrder : PyVal) (fields : PyDict)
    (imageUrl : Option String) (lines : List PyDict) :
    Except Unit (DB × Int × List OrderItemRow) :=
  match pyInt uid, pyFloat priceOrder with
  | some u, some t =>
    match buildItems db.products db.nextOrderId db.nextItemId lines with
    | .error _ => .error ()
    | .ok its =>
      .ok (commitOrderTx db (mkNewOrder db u t fields imageUrl) its, db.nextOrderId, its)
  | _, _ => .error ()

/-- Observable side-effect events of one `create_order` request, in order. -/
inductive Ev where
  | upload : String → Ev
  | txOpen : Ev
  | insertOrder : Int → Ev
  | insertItem : Int → Ev
  | txCommit : Ev
  | txRollback : Ev
deriving DecidableEq

/-- Outcome of `POST /order`; every constructor carries the state the request
leaves behind. -/
inductive CreateResult where
  | created : List Fila → DB → Int → CreateResult
  | badRequest : DB → CreateResult
  | unsupportedExt : DB → CreateResult
  | serverError : DB → CreateResult
deriving DecidableEq

/-- The state after the request, for any outcome. -/
def CreateResult.finalDb : CreateResult → DB
  | .created _ db _ => db
  | .badRequest db => db
  | .unsupportedExt db => db
  | .serverError db => db

/-- Whether the request returned 201. -/
def CreateResult.isCreated : CreateResult → Bool
  | .created _ _ _ => true
  | _ => false

/-- The flattened rows of the 201 response (empty for error outcomes). -/
def CreateResult.rows : CreateResult → List Fila
  | .created filas _ _ => filas
  | _ => []

/-- The extension allow-list of `upload_to_supabase_storage`. -/
def allowedExt : List String := [".jpg", ".jpeg", ".png", ".webp"]

/-- The tail of `create_order` after the upload step: open the transaction,
run the body, and either roll back (500) or commit and answer with the new
order's flattened rows. `pre` is the already-produced upload trace. -/
def finishCreate (db : DB) (uid price : PyVal) (fields : PyDict)
    (img : Option String) (pre : List Ev) (lines : List PyDict) :
    CreateResult × List Ev :=
  match createOrderTx db uid price fields img lines with
  | .error _ => (.serverError db, pre ++ [.txOpen, .txRollback])
  | .ok (db2, oid, its) =>
    (.created ((build_order_items_response db2).filter (fun f => f.id == oid)) db2 oid,
     pre ++ [.txOpen, .insertOrder oid] ++ its.map (fun it => Ev.insertItem it.id)
         ++ [.txCommit])

/-- `create_order` of `orders.py`. `uploadUrl` is the public URL the blob
storage collaborator would return for this upload; an empty string models the
collaborator not returning a usable URL (the handler then raises, caught as a
500). Returns the outcome together with the ordered side-effect trace. -/
def create_order (db : DB) (req : CreateReq) (uploadUrl : String) :
    CreateResult × List Ev :=
  let uid := resolveUserId req.fields
  let price := resolvePriceOrder req.fields
  let lines := resolveProducts req
  if uid = .vNone ∨ price = .vNone ∨ lines = [] then (.badRequest db, [])
  else
    match req.transfer with
    | none => finishCreate db uid price req.fields none [] lines
    | some f =>
      if allowedExt.contains f.ext then
        if uploadUrl = "" then (.serverError db, [])
        else finishCreate db uid price req.fields (some uploadUrl)
               [.upload uploadUrl] lines
      else (.unsupportedExt db, [])

/-- `payload.get("status_order") or payload.get("status")` in `update_order`. -/
def resolveStatusVal (d : PyDict) : PyVal :=
  pyOr (pyGet d "status_order") (pyGet d "status")

/-- `payload.get("descripcion") or payload.get("description") or
payload.get("desc")` in `update_order`. -/
def resolveDescVal (d : PyDict) : PyVal :=
  pyOr (pyGet d "descripcion") (pyOr (pyGet d "description") (pyGet d "desc"))

/-- The field assignments `update_order` performs on the fetched order:
`order.status = status_val` when the resolved status is not `None`, and
`order.descripcion = descripcion` likewise. No other column is touched and
no status precondition is checked. -/
def applyOrderUpdate (statusVal descVal : PyVal) (x : OrderRow) : OrderRow :=
  { x with
      status := if statusVal = .vNone then x.status else statusVal
      descripcion := if descVal = .vNone then x.descripcion else descVal }

/-- Outcome of `PUT /orders/{order_id}`. -/
inductive UpdateResult where
  | ok : List Fila → DB → UpdateResult
  | notFound : DB → UpdateResult
deriving DecidableEq

/-- The state after the update request. -/
def UpdateResult.finalDb : UpdateResult → DB
  | .ok _ db => db
  | .notFound db => db

/-- Whether the update returned 200. -/
def UpdateResult.isOk : UpdateResult → Bool
  | .ok _ _ => true
  | .notFound _ => false

/-- `update_order` of `orders.py`: fetch the order (404 when absent), apply
the status/description assignments unconditionally, commit, and answer with
the flattened rows of the updated order. -/
def update_order (db : DB) (oid : Int) (payload : PyDict) : UpdateResult :=
  let statusVal := resolveStatusVal payload
  let descVal := resolveDescVal payload
  match db.orders.find? (fun o => o.id == oid) with
  | none => .notFound db
  | some _ =>
    let db2 := { db with
      orders := db.orders.map (fun x =>
        if x.id = oid then applyOrderUpdate statusVal descVal x else x) }
    .ok ((build_order_items_response db2).filter (fun f => f.id == oid)) db2

/-- `lower(Order.status) == "finalizado"`: the case-insensitive finalized
check used by the review guards (`func.lower` applies to the text column). -/
def statusIsFinalized (v : PyVal) : Bool :=
  match v with
  | .vStr s => String.mk (s.toList.map Char.toLower) == finalizedStatus
  | _ => false

/-- `_user_bought_product_and_finalized` of `comments.py`: the user has at
least one order item for the product inside one of their orders whose status
is `finalizado` case-insensitively. -/
def user_bought_product_and_finalized (db : DB) (uid pid : Int) : Bool :=
  db.order_items.any (fun it =>
    decide (it.product_id = pid) &&
    db.orders.any (fun o =>
      decide (o.id = it.order_id) && decide (o.user_id = uid) &&
      statusIsFinalized o.status))

/-- `_user_has_any_finalized_order` of `comments.py`. -/
def user_has_any_finalized_order (db : DB) (uid : Int) : Bool :=
  db.orders.any (fun o => decide (o.user_id = uid) && statusIsFinalized o.status)

/-- Outcome of `POST /comments` / `POST /comments-general`. -/
inductive CommentResult where
  | created : DB → CommentRow → CommentResult
  | badRequest : DB → CommentResult
  | notVerified : DB → CommentResult
  | serverError : DB → CommentResult
deriving DecidableEq

/-- `"product:NN"` string normalization for the product id in
`create_comment`. -/
def normalizeProductId (v : PyVal) : PyVal :=
  match v with
  | .vStr s =>
    if ("product:".toList).isPrefixOf s.toList then
      match natDigits? (s.toList.drop 8) with
      | some n => .vInt n
      | none => v
    else v
  | _ => v

/-- `payload.get("descripcion") or payload.get("comment") or
payload.get("comentario")` in `create_comment`. -/
def commentDescVal (d : PyDict) : PyVal :=
  pyOr (pyGet d "descripcion") (pyOr (pyGet d "comment") (pyGet d "comentario"))

/-- `payload.get("calificacion") or payload.get("rating")`. -/
def commentCalVal (d : PyDict) : PyVal :=
  pyOr (pyGet d "calificacion") (pyGet d "rating")

/-- `payload.get("user_id") or payload.get("user") or payload.get("usuario")`. -/
def commentUserVal (d : PyDict) : PyVal :=
  pyOr (pyGet d "user_id") (pyOr (pyGet d "user") (pyGet d "usuario"))

/-- `payload.get("id_producto") or payload.get("product_id") or
payload.get("idProducto")`. -/
def commentPidVal (d : PyDict) : PyVal :=
  pyOr (pyGet d "id_producto") (pyOr (pyGet d "product_id") (pyGet d "idProducto"))

/-- `create_comment` of `comments.py`: alias resolution, completeness check
(400), purchase-verification guard (406), then the insert. Conversion errors
inside the guarded block are caught as 500 with rollback. -/
def create_comment (db : DB) (payload : PyDict) : CommentResult :=
  let descripcion := commentDescVal payload
  let calificacion := commentCalVal payload
  let userVal := commentUserVal payload
  let pidVal := commentPidVal payload
  if userVal = .vNone ∨ pidVal = .vNone ∨ calificacion = .vNone ∨ descripcion = .vNone then
    .badRequest db
  else
    let pidVal2 := normalizeProductId pidVal
    match pyInt userVal, pyInt pidVal2 with
    | some uid, some pid =>
      if user_bought_product_and_finalized db uid pid = false then .notVerified db
      else
        match pyInt calificacion with
        | none => .serverError db
        | some r =>
          let c : CommentRow :=
            { id := db.nextCommentId, user_id := uid, product_id := some pid,
              rating := r, comment := pyStr descripcion, created_at := db.clock }
          .created { db with comments := db.comments ++ [c],
                             nextCommentId := db.nextCommentId + 1,
                             clock := db.clock + 1 } c
    | _, _ => .serverError db

/-- `create_comment_general` of `comments.py`: like `create_comment` but with
no product reference and the any-finalized-order guard. -/
def create_comment_general (db : DB) (payload : PyDict) : CommentResult :=
  let descripcion := pyOr (pyGet payload "descripcion") (pyGet payload "comment")
  let calificacion := pyOr (pyGet payload "calificacion") (pyGet payload "rating")
  let userVal := pyOr (pyGet payload "user_id") (pyGet payload "user")
  if userVal = .vNone ∨ calificacion = .vNone ∨ descripcion = .vNone then
    .badRequest db
  else
    match pyInt userVal with
    | some uid =>
      if user_has_any_finalized_order db uid = false then .notVerified db
      else
        match pyInt calificacion with
        | none => .serverError db
        | some r =>
          let c : CommentRow :=
            { id := db.nextCommentId, user_id := uid, product_id := none,
              rating := r, comment := pyStr descripcion, created_at := db.clock }
          .created { db with comments := db.comments ++ [c],
                             nextCommentId := db.nextCommentId + 1,
                             clock := db.clock + 1 } c
    | none => .serverError db

/-- First letter of the presented status is a capital letter (the shape the
specification asserts for the `status` field of every flattened row). -/
def statusCapitalized (v : PyVal) : Bool :=
  match v with
  | .vStr s => !s.isEmpty && s.front.isUpper
  | _ => false

/-! ### Concrete states and requests used to instantiate the theorems -/

/-- An empty database with fresh id sequences. -/
def emptyDB : DB where
  orders := []
  order_items := []
  products := []
  product_images := []
  comments := []
  nextOrderId := 1
  nextItemId := 1
  nextCommentId := 1
  clock := 0

/-- Product 3 with current price 20.00 (the worked example of the spec). -/
def productThree : ProductRow where
  id := 3
  name := "camiseta"
  price := 20
  description := none
  stock := 5
  category_id := none

/-- A database holding just product 3. -/
def dbWithProduct : DB := { emptyDB with products := [productThree] }

/-- The spec's worked example request: user 7 orders product 3, quantity 2,
claimed total 40.00. -/
def reqExample : CreateReq where
  fields := [("user_id", .vInt 7), ("price_order", .vInt 40)]
  productsField := some [[("id_producto", .vInt 3), ("cantidad", .vInt 2)]]
  itemsField := none
  transfer := none

/-- Three-line request whose second line has a malformed quantity. -/
def reqBadQty : CreateReq where
  fields := [("user_id", .vInt 7), ("price_order", .vInt 40)]
  productsField := some
    [[("id_producto", .vInt 3), ("cantidad", .vInt 1)],
     [("id_producto", .vInt 3), ("cantidad", .vStr "abc")],
     [("id_producto", .vInt 3), ("cantidad", .vInt 1)]]
  itemsField := none
  transfer := none

/-- A request whose only line lacks any product-id key. -/
def reqNoPid : CreateReq where
  fields := [("user_id", .vInt 7), ("price_order", .vInt 10)]
  productsField := some [[("cantidad", .vInt 2)]]
  itemsField := none
  transfer := none

/-- A request whose user id and total arrive only through the final aliases
`user` / `total`, both with the falsy value 0. -/
def reqFalsyAliases : CreateReq where
  fields := [("user", .vInt 0), ("total", .vInt 0)]
  productsField := some [[("id_producto", .vInt 1)]]
  itemsField := none
  transfer := none

/-- The worked example with an attached `.png` receipt and shipping data. -/
def reqWithReceipt : CreateReq where
  fields := [("user_id", .vInt 7), ("price_order", .vInt 40), ("nombre", .vStr "Ana")]
  productsField := some [[("id_producto", .vInt 3), ("cantidad", .vInt 2)]]
  itemsField := none
  transfer := some { ext := ".png" }

/-- An order of user 7 currently in delivery, with empty description. -/
def orderInDelivery : OrderRow where
  id := 1
  user_id := 7
  total := 10
  status := .vStr inDeliveryStatus
  nombre := .vNone
  apellido := .vNone
  direccion := .vNone
  email := .vNone
  telefono := .vNone
  descripcion := .vNone
  image_transaccion := none
  created_at := 0

/-- A database holding only `orderInDelivery`. -/
def dbInDelivery : DB := { emptyDB with orders := [orderInDelivery], nextOrderId := 2 }

/-- A finalized order of user 7 (status stored with a capital letter, which
the case-insensitive guard must still accept). -/
def orderFinalized : OrderRow := { orderInDelivery with status := .vStr "Finalizado" }

/-- The order item linking `orderFinalized` to product 3. -/
def itemFinalized : OrderItemRow where
  id := 1
  order_id := 1
  product_id := 3
  quantity := 1
  price := 20
  talla := .vNone
  color := .vNone

/-- A database where user 7 has a finalized order containing product 3. -/
def dbFinalized : DB :=
  { emptyDB with orders := [orderFinalized], order_items := [itemFinalized],
                 nextOrderId := 2, nextItemId := 2 }

/-- A complete review payload of user 7 for product 3. -/
def reviewPayload : PyDict :=
  [("user_id", .vInt 7), ("id_producto", .vInt 3),
   ("calificacion", .vInt 5), ("descripcion", .vStr "excelente")]

/-- Status/description update payload used against `dbInDelivery`. -/
def updatePayload : PyDict := [("descripcion", .vStr "entregar en porteria")]

/-- A request carrying no user id under any accepted alias. -/
def reqMissingUser : CreateReq where
  fields := [("price_order", .vInt 5)]
  productsField := some [[("id_producto", .vInt 1)]]
  itemsField := none
  transfer := none

/-! ### Supporting lemmas -/

theorem mem_of_index {α : Type} :
    ∀ (l : List α) (i : Nat) (a : α), l.get? i = some a → a ∈ l := by
  intro l
  induction l with
  | nil => intro i a h; simp [List.get?] at h
  | cons x xs ih =>
    intro i a h
    cases i with
    | zero =>
      simp [List.get?] at h
      simp [h]
    | succ j =>
      simp only [List.get?] at h
      exact List.mem_cons_of_mem x (ih j a h)

theorem noDupIds_pairwise :
    ∀ (l : List Int), noDupIds l = true → l.Pairwise (fun a b => a ≠ b) := by
  intro l
  induction l with
  | nil => intro _; exact List.Pairwise.nil
  | cons x xs ih =>
    intro h
    simp only [noDupIds, Bool.and_eq_true, List.all_eq_true] at h
    refine List.Pairwise.cons ?_ (ih h.2)
    intro y hy
    have := h.1 y hy
    simp at this
    exact fun hxy => this hxy.symm

theorem orderInsertDesc_perm (x : OrderRow) (l : List OrderRow) :
    (orderInsertDesc x l).Perm (x :: l) := by
  induction l with
  | nil => simp [orderInsertDesc]
  | cons y ys ih =>
    by_cases h : decide (x.created_at < y.created_at) = true
    · simp only [orderInsertDesc, h, if_true]
      exact (ih.cons y).trans (List.Perm.swap x y ys)
    · simp only [orderInsertDesc, h]
      simp

theorem ordersByCreatedDesc_perm (l : List OrderRow) :
    (ordersByCreatedDesc l).Perm l := by
  induction l with
  | nil => simp [ordersByCreatedDesc]
  | cons x xs ih =>
    exact (orderInsertDesc_perm x (ordersByCreatedDesc xs)).trans (ih.cons x)

theorem filter_flatMap_unique (g : OrderRow → List Fila) (o : OrderRow) :
    ∀ (l : List OrderRow),
      (∀ x ∈ l, ∀ f ∈ g x, f.id = x.id) →
      l.Pairwise (fun a b => a.id ≠ b.id) →
      o ∈ l →
      (l.flatMap g).filter (fun f => f.id == o.id) = g o := by
  intro l
  induction l with
  | nil => intro _ _ hmem; simp at hmem
  | cons x xs ih =>
    intro hids hpw hmem
    have hpw1 := List.pairwise_cons.mp hpw
    rw [List.flatMap_cons, List.filter_append]
    rcases List.mem_cons.mp hmem with heq | hmem2
    · subst heq
      have h1 : (g o).filter (fun f => f.id == o.id) = g o := by
        apply List.filter_eq_self.mpr
        intro f hf
        have := hids o (List.mem_cons_self o xs) f hf
        simp [this]
      have h2 : (xs.flatMap g).filter (fun f => f.id == o.id) = [] := by
        apply List.filter_eq_nil_iff.mpr
        intro f hf
        rcases List.mem_flatMap.mp hf with ⟨y, hy, hfy⟩
        have hid := hids y (List.mem_cons_of_mem o hy) f hfy
        have hne := hpw1.1 y hy
        simp [hid]
        exact fun hc => hne hc.symm
      rw [h1, h2, List.append_nil]
    · have hne : x.id ≠ o.id := hpw1.1 o hmem2
      have h1 : (g x).filter (fun f => f.id == o.id) = [] := by
        apply List.filter_eq_nil_iff.mpr
        intro f hf
        have hid := hids x (List.mem_cons_self x xs) f hf
        simp [hid]
        exact fun hc => hne hc
      rw [h1, List.nil_append]
      exact ih (fun y hy => hids y (List.mem_cons_of_mem x hy)) hpw1.2 hmem2

theorem find?_append_last (l : List OrderRow) (o : OrderRow) (oid : Int)
    (hnone : ∀ x ∈ l, x.id ≠ oid) (ho : o.id = oid) :
    (l ++ [o]).find? (fun x => x.id == oid) = some o := by
  induction l with
  | nil => simp [List.find?, ho]
  | cons x xs ih =>
    have hx : (x.id == oid) = false := by
      simp
      exact hnone x (List.mem_cons_self x xs)
    simp only [List.cons_append, List.find?]
    rw [hx]
    exact ih (fun y hy => hnone y (List.mem_cons_of_mem x hy))

theorem filaGet_eq_filaBuild (db : DB) (o : OrderRow) (it : OrderItemRow) :
    filaOfItemGet db o it = filaOfItemBuild db o it := by
  simp [filaOfItemGet, filaOfItemBuild, metaOfOrderGet, metaOfOrderBuild]

theorem filaOfItemBuild_id (db : DB) (o : OrderRow) (it : OrderItemRow) :
    (filaOfItemBuild db o it).id = o.id := rfl

theorem filaOfItemBuild_status (db : DB) (o : OrderRow) (it : OrderItemRow) :
    (filaOfItemBuild db o it).status = o.status := rfl

theorem createOrderTx_ok {db : DB} {uid price : PyVal} {fields : PyDict}
    {img : Option String} {lines : List PyDict} {db2 : DB} {oid : Int}
    {its : List OrderItemRow}
    (h : createOrderTx db uid price fields img lines = .ok (db2, oid, its)) :
    ∃ u t, pyInt uid = some u ∧ pyFloat price = some t ∧
      buildItems db.products db.nextOrderId db.nextItemId lines = .ok its ∧
      oid = db.nextOrderId ∧
      db2 = commitOrderTx db (mkNewOrder db u t fields img) its := by
  unfold createOrderTx at h
  split at h
  · rename_i u t hu ht
    split at h
    · exact absurd h (by simp)
    · rename_i its0 hits
      simp only [Except.ok.injEq, Prod.mk.injEq] at h
      obtain ⟨hdb2, hoid, hits0⟩ := h
      subst hits0
      exact ⟨u, t, hu, ht, hits, hoid.symm, hdb2.symm⟩
  · exact absurd h (by simp)

theorem processLine_none {prods : List ProductRow} {line : PyDict}
    (h : processLine prods line = .ok none) : truthy (linePid line) = false := by
  unfold processLine at h
  split at h
  · assumption
  · split at h
    · exact absurd h (by simp)
    · split at h
      · exact absurd h (by simp)
      · split at h
        · exact absurd h (by simp)
        · exact absurd h (by simp)

theorem processLine_ok_some {prods : List ProductRow} {line : PyDict} {d : ItemData}
    (h : processLine prods line = .ok (some d)) :
    pyInt (linePid line) = some d.product_id ∧
    pyInt (lineCantidad line) = some d.quantity ∧
    d.talla = lineTalla line ∧ d.color = lineColor line ∧
    ((∃ p, lookupProduct prods d.product_id = some p ∧ d.price = p.price) ∨
     (lookupProduct prods d.product_id = none ∧
      pyFloat (lineClientPrice line) = some d.price)) := by
  unfold processLine at h
  split at h
  · exact absurd h (by simp)
  · split at h
    · exact absurd h (by simp)
    · rename_i pid hp
      split at h
      · exact absurd h (by simp)
      · rename_i pr hpr
        split at h
        · exact absurd h (by simp)
        · rename_i qty hq
          simp only [Except.ok.injEq, Option.some.injEq] at h
          subst h
          refine ⟨hp, hq, rfl, rfl, ?_⟩
          unfold linePrice? at hpr
          revert hpr
          cases hlook : lookupProduct prods pid with
          | some p =>
            intro hpr
            simp only [Option.some.injEq] at hpr
            exact Or.inl ⟨p, rfl, hpr.symm⟩
          | none =>
            intro hpr
            exact Or.inr ⟨rfl, hpr⟩

theorem processLine_error_of_badqty {prods : List ProductRow} {line : PyDict}
    (hpid : truthy (linePid line) = true)
    (hqty : pyInt (lineCantidad line) = none) :
    processLine prods line = .error () := by
  unfold processLine
  rw [hpid]
  simp only [Bool.true_eq_false, if_false]
  split
  · rfl
  · split
    · rfl
    · rw [hqty]

theorem buildItems_error_of_badline {prods : List ProductRow} {oid : Int} :
    ∀ (lines : List PyDict) (sid : Int) (line : PyDict), line ∈ lines →
      truthy (linePid line) = true → pyInt (lineCantidad line) = none →
      buildItems prods oid sid lines = .error () := by
  intro lines
  induction lines with
  | nil => intro _ _ hmem; simp at hmem
  | cons l rest ih =>
    intro sid line hmem hpid hqty
    rcases List.mem_cons.mp hmem with heq | hmem2
    · subst heq
      unfold buildItems
      rw [processLine_error_of_badqty hpid hqty]
    · unfold buildItems
      cases hpl : processLine prods l with
      | error e => rfl
      | ok od =>
        cases od with
        | none => exact ih sid line hmem2 hpid hqty
        | some d => rw [ih (sid + 1) line hmem2 hpid hqty]

theorem buildItems_mem_of_kept {prods : List ProductRow} {oid : Int} :
    ∀ (lines : List PyDict) (sid : Int) (its : List OrderItemRow),
      buildItems prods oid sid lines = .ok its →
      ∀ line ∈ lines, truthy (linePid line) = true →
      ∃ d, processLine prods line = .ok (some d) ∧
        ∃ it ∈ its, it.order_id = oid ∧ it.product_id = d.product_id ∧
          it.quantity = d.quantity ∧ it.price = d.price ∧
          it.talla = d.talla ∧ it.color = d.color := by
  intro lines
  induction lines with
  | nil => intro _ _ _ line hmem; simp at hmem
  | cons l rest ih =>
    intro sid its h line hmem hpid
    unfold buildItems at h
    cases hpl : processLine prods l with
    | error e => rw [hpl] at h; exact absurd h (by simp)
    | ok od =>
      rw [hpl] at h
      cases od with
      | none =>
        rcases List.mem_cons.mp hmem with heq | hmem2
        · subst heq
          exact absurd (processLine_none hpl) (by simp [hpid])
        · exact ih sid its h line hmem2 hpid
      | some d =>
        cases hrest : buildItems prods oid (sid + 1) rest with
        | error e => rw [hrest] at h; exact absurd h (by simp)
        | ok tail =>
          rw [hrest] at h
          simp only [Except.ok.injEq] at h
          subst h
          rcases List.mem_cons.mp hmem with heq | hmem2
          · subst heq
            refine ⟨d, hpl, ?_⟩
            refine ⟨_, List.mem_cons_self _ _, ?_⟩
            exact ⟨rfl, rfl, rfl, rfl, rfl, rfl⟩
          · obtain ⟨d2, hd2, it, hit, hrest2⟩ := ih (sid + 1) tail hrest line hmem2 hpid
            exact ⟨d2, hd2, it, List.mem_cons_of_mem _ hit, hrest2⟩

theorem finishCreate_created {db : DB} {uid price : PyVal} {fields : PyDict}
    {img : Option String} {pre : List Ev} {lines : List PyDict}
    {filas : List Fila} {db2 : DB} {oid : Int} {tr : List Ev}
    (h : finishCreate db uid price fields img pre lines = (.created filas db2 oid, tr)) :
    ∃ its, createOrderTx db uid price fields img lines = .ok (db2, oid, its) ∧
      filas = (build_order_items_response db2).filter (fun f => f.id == oid) ∧
      tr = pre ++ [.txOpen, .insertOrder oid]
           ++ its.map (fun it => Ev.insertItem it.id) ++ [.txCommit] := by
  unfold finishCreate at h
  split at h
  · exact absurd h (by simp)
  · rename_i db2x oidx its hctx
    simp only [Prod.mk.injEq, CreateResult.created.injEq] at h
    obtain ⟨⟨hf, hd, ho⟩, ht⟩ := h
    subst hd
    subst ho
    exact ⟨its, hctx, hf.symm, ht.symm⟩

theorem create_order_created {db : DB} {req : CreateReq} {url : String}
    {filas : List Fila} {db2 : DB} {oid : Int} {tr : List Ev}
    (h : create_order db req url = (.created filas db2 oid, tr)) :
    ∃ img pre its,
      createOrderTx db (resolveUserId req.fields) (resolvePriceOrder req.fields)
        req.fields img (resolveProducts req) = .ok (db2, oid, its) ∧
      filas = (build_order_items_response db2).filter (fun f => f.id == oid) ∧
      tr = pre ++ [.txOpen, .insertOrder oid]
           ++ its.map (fun it => Ev.insertItem it.id) ++ [.txCommit] ∧
      ((req.transfer = none ∧ img = none ∧ pre = ([] : List Ev)) ∨
       (∃ fl, req.transfer = some fl ∧ allowedExt.contains fl.ext = true ∧
          url ≠ "" ∧ img = some url ∧ pre = [Ev.upload url])) := by
  simp only [create_order] at h
  split at h
  · exact absurd h (by simp)
  · split at h
    · rename_i htr
      obtain ⟨its, hctx, hf, ht⟩ := finishCreate_created h
      exact ⟨none, [], its, hctx, hf, ht, Or.inl ⟨htr, rfl, rfl⟩⟩
    · rename_i fl htr
      split at h
      · rename_i hext
        split at h
        · exact absurd h (by simp)
        · rename_i hurl
          obtain ⟨its, hctx, hf, ht⟩ := finishCreate_created h
          exact ⟨some url, [Ev.upload url], its, hctx, hf, ht,
            Or.inr ⟨fl, htr, hext, hurl, rfl, rfl⟩⟩
      · exact absurd h (by simp)

theorem create_order_atomic (db : DB) (req : CreateReq) (url : String) :
    (create_order db req url).1.isCreated = true ∨
    (create_order db req url).1.finalDb = db := by
  simp only [create_order]
  split
  · right; rfl
  · split
    · unfold finishCreate
      split
      · right; rfl
      · left; rfl
    · split
      · split
        · right; rfl
        · unfold finishCreate
          split
          · right; rfl
          · left; rfl
      · right; rfl

theorem create_order_badRequest {db : DB} {req : CreateReq} {url : String}
    (h : resolveUserId req.fields = .vNone ∨ resolvePriceOrder req.fields = .vNone ∨
         resolveProducts req = []) :
    create_order db req url = (.badRequest db, []) := by
  simp only [create_order]
  rw [if_pos h]

theorem create_order_not_created_of_tx_error {db : DB} {req : CreateReq} {url : String}
    (h : ∀ img, createOrderTx db (resolveUserId req.fields)
      (resolvePriceOrder req.fields) req.fields img (resolveProducts req) = .error ()) :
    (create_order db req url).1.isCreated = false := by
  simp only [create_order]
  split
  · rfl
  · split
    · unfold finishCreate
      rw [h none]
      rfl
    · split
      · split
        · rfl
        · unfold finishCreate
          rw [h (some url)]
          rfl
      · rfl

theorem wf_orders_pairwise {db : DB} (h : db.wf = true) :
    db.orders.Pairwise (fun a b => a.id ≠ b.id) := by
  unfold DB.wf at h
  simp only [Bool.and_eq_true] at h
  exact List.pairwise_map.mp (noDupIds_pairwise _ h.1.1)

theorem wf_orders_lt {db : DB} (h : db.wf = true) :
    ∀ o ∈ db.orders, o.id < db.nextOrderId := by
  unfold DB.wf at h
  simp only [Bool.and_eq_true, List.all_eq_true, decide_eq_true_eq] at h
  exact h.1.2

theorem commit_orders_pairwise {db : DB} (hwf : db.wf = true)
    (o : OrderRow) (its : List OrderItemRow) (ho : o.id = db.nextOrderId) :
    (commitOrderTx db o its).orders.Pairwise (fun a b => a.id ≠ b.id) := by
  show (db.orders ++ [o]).Pairwise (fun a b => a.id ≠ b.id)
  rw [List.pairwise_append]
  refine ⟨wf_orders_pairwise hwf, List.pairwise_singleton _ _, ?_⟩
  intro a ha b hb
  rcases List.mem_singleton.mp hb with rfl
  have := wf_orders_lt hwf a ha
  rw [ho]
  exact ne_of_lt this

theorem build_filter_eq_rows (db2 : DB) (o : OrderRow)
    (hpw : db2.orders.Pairwise (fun a b => a.id ≠ b.id))
    (hmem : o ∈ db2.orders) :
    (build_order_items_response db2).filter (fun f => f.id == o.id) =
      (itemsOfOrder db2 o.id).map (filaOfItemBuild db2 o) := by
  unfold build_order_items_response
  have hperm := ordersByCreatedDesc_perm db2.orders
  have hsymm : ∀ {x y : OrderRow}, x.id ≠ y.id → y.id ≠ x.id :=
    fun h => h.symm
  apply filter_flatMap_unique
  · intro x _ f hf
    rcases List.mem_map.mp hf with ⟨it, _, hfit⟩
    rw [← hfit]
    exact filaOfItemBuild_id db2 x it
  · exact (List.Perm.pairwise_iff hsymm hperm).mpr hpw
  · exact hperm.mem_iff.mpr hmem

theorem get_order_of_commit {db : DB} (hwf : db.wf = true)
    {o : OrderRow} {its : List OrderItemRow} (ho : o.id = db.nextOrderId) :
    get_order (commitOrderTx db o its) db.nextOrderId =
      .ok ((itemsOfOrder (commitOrderTx db o its) o.id).map
        (filaOfItemGet (commitOrderTx db o its) o)) := by
  unfold get_order
  have hfind : (commitOrderTx db o its).orders.find?
      (fun x => x.id == db.nextOrderId) = some o := by
    show (db.orders ++ [o]).find? (fun x => x.id == db.nextOrderId) = some o
    apply find?_append_last
    · intro x hx
      exact ne_of_lt (wf_orders_lt hwf x hx)
    · exact ho
  rw [hfind]

/-! ### Claims -/

/-- C1: Order creation is atomic: any non-created outcome (in particular a
failed OrderItem insertion, e.g. a malformed quantity on one of the lines)
leaves the database exactly as it was — no Order row and no OrderItem row of
that request persist. A line with a truthy product id but a quantity that
`int()` rejects always aborts the request. -/
theorem claim_C1 (db : DB) (req : CreateReq) (url : String) (line : PyDict) :
    ((create_order db req url).1.isCreated = false →
      (create_order db req url).1.finalDb = db) ∧
    (line ∈ resolveProducts req → truthy (linePid line) = true →
      pyInt (lineCantidad line) = none →
      (create_order db req url).1.isCreated = false ∧
      (create_order db req url).1.finalDb = db) := by
  have hato := create_order_atomic db req url
  constructor
  · intro h
    rcases hato with hc | hdb
    · rw [hc] at h; exact absurd h (by simp)
    · exact hdb
  · intro hmem hpid hqty
    have herr : ∀ img, createOrderTx db (resolveUserId req.fields)
        (resolvePriceOrder req.fields) req.fields img (resolveProducts req) =
        .error () := by
      intro img
      unfold createOrderTx
      split
      · rw [buildItems_error_of_badline (resolveProducts req) db.nextItemId
          line hmem hpid hqty]
      · rfl
    have hnc := @create_order_not_created_of_tx_error db req url herr
    refine ⟨hnc, ?_⟩
    rcases hato with hc | hdb
    · rw [hnc] at hc; exact absurd hc (by simp)
    · exact hdb

/-- C1 witness: the three-line request whose second line has quantity
`"abc"` is rejected and the database is untouched. -/
theorem claim_C1_witness :
    (create_order dbWithProduct reqBadQty "").1.isCreated = false ∧
    (create_order dbWithProduct reqBadQty "").1.finalDb = dbWithProduct :=
  (claim_C1 dbWithProduct reqBadQty ""
      [("id_producto", PyVal.vInt 3), ("cantidad", PyVal.vStr "abc")]).2
    (by decide) (by decide) (by decide)

/-- C2 counterexample: a request whose only line has no (truthy) product id
passes validation, returns 201, and commits an Order with zero OrderItems —
refuting the claim that a successful creation always has at least one item. -/
theorem claim_C2_counterexample :
    (create_order emptyDB reqNoPid "").1.isCreated = true ∧
    (create_order emptyDB reqNoPid "").1.finalDb.order_items = [] ∧
    (create_order emptyDB reqNoPid "").1.finalDb.orders.length = 1 := by decide

/-- C2 (amended): a successful create-order persists at least one OrderItem
for the new Order provided at least one product line carries a truthy product
id; lines with an absent or falsy product id are silently skipped, so an
Order with zero items is possible when no line has one. -/
theorem claim_C2 (db : DB) (req : CreateReq) (url : String) (filas : List Fila)
    (db2 : DB) (oid : Int) (tr : List Ev)
    (h : create_order db req url = (.created filas db2 oid, tr))
    (line : PyDict) (hmem : line ∈ resolveProducts req)
    (hpid : truthy (linePid line) = true) :
    ∃ it ∈ db2.order_items, it.order_id = oid := by
  obtain ⟨img, pre, its, hctx, _, _, _⟩ := create_order_created h
  obtain ⟨u, t, hu, ht, hbuild, hoid, hdb2⟩ := createOrderTx_ok hctx
  obtain ⟨d, hd, it, hit, hoi, _⟩ := buildItems_mem_of_kept _ _ _ hbuild line hmem hpid
  subst hdb2
  refine ⟨it, ?_, ?_⟩
  · show it ∈ db.order_items ++ its
    exact List.mem_append_right _ hit
  · rw [hoi, hoid]

/-- C2 witness: the worked example (one line, product 3) creates exactly its
item for the new order. -/
theorem claim_C2_witness :
    ∃ it ∈ (create_order dbWithProduct reqExample "").1.finalDb.order_items,
      it.order_id = 1 :=
  claim_C2 dbWithProduct reqExample ""
    ((create_order dbWithProduct reqExample "").1.rows)
    ((create_order dbWithProduct reqExample "").1.finalDb) 1
    ((create_order dbWithProduct reqExample "").2)
    (by decide)
    [("id_producto", PyVal.vInt 3), ("cantidad", PyVal.vInt 2)]
    (by decide) (by decide)

/-- C3 counterexample: a description (shipping/contact) edit on an order in
`in_delivery` status is not rejected — `update_order` answers 200 and the
stored description changes, refuting the pending-only guard. -/
theorem claim_C3_counterexample :
    dbInDelivery.orders.map (fun o => o.status) = [.vStr inDeliveryStatus] ∧
    dbInDelivery.orders.map (fun o => o.descripcion) = [.vNone] ∧
    (update_order dbInDelivery 1 updatePayload).isOk = true ∧
    (update_order dbInDelivery 1 updatePayload).finalDb.orders.map
      (fun o => o.descripcion) = [.vStr "entregar en porteria"] := by decide

/-- C3 (amended): `update_order` enforces no status precondition at all: for
any existing order it returns 200 and applies the resolved status and
description edits unconditionally; every other column (including the other
shipping/contact fields present in the payload) is left untouched. -/
theorem claim_C3 (db : DB) (oid : Int) (payload : PyDict) (o : OrderRow)
    (h : db.orders.find? (fun x => x.id == oid) = some o) :
    (update_order db oid payload).isOk = true ∧
    (update_order db oid payload).finalDb.orders =
      db.orders.map (fun x => if x.id = oid then
        applyOrderUpdate (resolveStatusVal payload) (resolveDescVal payload) x
        else x) ∧
    (∀ s d x, (applyOrderUpdate s d x).id = x.id ∧
      (applyOrderUpdate s d x).user_id = x.user_id ∧
      (applyOrderUpdate s d x).total = x.total ∧
      (applyOrderUpdate s d x).nombre = x.nombre ∧
      (applyOrderUpdate s d x).apellido = x.apellido ∧
      (applyOrderUpdate s d x).direccion = x.direccion ∧
      (applyOrderUpdate s d x).email = x.email ∧
      (applyOrderUpdate s d x).telefono = x.telefono ∧
      (applyOrderUpdate s d x).image_transaccion = x.image_transaccion) ∧
    (∀ s d x, s ≠ PyVal.vNone → (applyOrderUpdate s d x).status = s) := by
  unfold update_order
  rw [h]
  refine ⟨rfl, rfl, ?_, ?_⟩
  · intro s d x
    exact ⟨rfl, rfl, rfl, rfl, rfl, rfl, rfl, rfl, rfl⟩
  · intro s d x hs
    unfold applyOrderUpdate
    simp [hs]

/-- C3 witness: the update on the concrete in-delivery order goes through. -/
theorem claim_C3_witness : (update_order dbInDelivery 1 updatePayload).isOk = true :=
  (claim_C3 dbInDelivery 1 updatePayload orderInDelivery (by decide)).1

/-- C4: per-line price snapshotting. When a kept line's referenced product
exists, the inserted OrderItem carries the product's current price (any
client-supplied per-line price is ignored); when it does not exist, the item
is still created with the converted client-supplied price (zero when none is
supplied, since the fallback chain ends in 0). The Order's own total is the
converted client-supplied total, never recomputed from the lines. -/
theorem claim_C4 (db : DB) (req : CreateReq) (url : String) (filas : List Fila)
    (db2 : DB) (oid : Int) (tr : List Ev)
    (h : create_order db req url = (.created filas db2 oid, tr))
    (line : PyDict) (hmem : line ∈ resolveProducts req) (pid : Int)
    (hpid : truthy (linePid line) = true)
    (hpint : pyInt (linePid line) = some pid) :
    ((∀ p, lookupProduct db.products pid = some p →
        ∃ it ∈ db2.order_items, it.order_id = oid ∧ it.product_id = pid ∧
          it.price = p.price) ∧
     (lookupProduct db.products pid = none →
        ∀ q, pyFloat (lineClientPrice line) = some q →
          ∃ it ∈ db2.order_items, it.order_id = oid ∧ it.product_id = pid ∧
            it.price = q)) ∧
    (∃ t, pyFloat (resolvePriceOrder req.fields) = some t ∧
      ∃ o ∈ db2.orders, o.id = oid ∧ o.total = t) := by
  obtain ⟨img, pre, its, hctx, _, _, _⟩ := create_order_created h
  obtain ⟨u, t, hu, ht, hbuild, hoid, hdb2⟩ := createOrderTx_ok hctx
  obtain ⟨d, hd, it, hit, hoi, hpi, hqi, hpr, _, _⟩ :=
    buildItems_mem_of_kept _ _ _ hbuild line hmem hpid
  obtain ⟨hd1, _, _, _, hprice⟩ := processLine_ok_some hd
  have hdpid : d.product_id = pid := by
    rw [hpint] at hd1
    exact (Option.some.injEq _ _).mp hd1.symm
  subst hdb2
  have hmem2 : it ∈ db.order_items ++ its := List.mem_append_right _ hit
  refine ⟨⟨?_, ?_⟩, ?_⟩
  · intro p hp
    rcases hprice with ⟨p2, hl, hpe⟩ | ⟨hl, _⟩
    · rw [hdpid, hp] at hl
      have hp2 : p2 = p := (Option.some.injEq _ _).mp hl.symm
      subst hp2
      exact ⟨it, hmem2, by rw [hoi, hoid], by rw [hpi, hdpid], by rw [hpr, hpe]⟩
    · rw [hdpid, hp] at hl
      exact absurd hl (by simp)
  · intro hl q hq
    rcases hprice with ⟨p2, hl2, _⟩ | ⟨_, hq2⟩
    · rw [hdpid, hl] at hl2
      exact absurd hl2 (by simp)
    · rw [hq] at hq2
      have hqd : q = d.price := (Option.some.injEq _ _).mp hq2
      exact ⟨it, hmem2, by rw [hoi, hoid], by rw [hpi, hdpid], by rw [hpr, hqd]⟩
  · refine ⟨t, ht, mkNewOrder db u t req.fields img, ?_, by rw [hoid]; rfl, rfl⟩
    show _ ∈ db.orders ++ [mkNewOrder db u t req.fields img]
    exact List.mem_append_right _ (List.mem_singleton.mpr rfl)

/-- C4 witness: product 3 costs 20.00; the worked example with claimed total
40.00 yields an item priced 20.00 while the Order keeps the claimed total. -/
theorem claim_C4_witness :
    ∃ it ∈ (create_order dbWithProduct reqExample "").1.finalDb.order_items,
      it.order_id = 1 ∧ it.product_id = 3 ∧ it.price = productThree.price :=
  ((claim_C4 dbWithProduct reqExample ""
      ((create_order dbWithProduct reqExample "").1.rows)
      ((create_order dbWithProduct reqExample "").1.finalDb) 1
      ((create_order dbWithProduct reqExample "").2)
      (by decide)
      [("id_producto", PyVal.vInt 3), ("cantidad", PyVal.vInt 2)]
      (by decide) 3 (by decide) (by decide)).1.1) productThree (by decide)

/-- C5: review gating. A product-scoped review is created only when the user
has a case-insensitively `finalizado` order containing that product (the
spec's `finalized`); when that check fails (for a complete, well-typed
payload) the request is rejected with 406 and no Comment row is persisted
(the state is returned unchanged). A general review requires some finalized
order of the user, regardless of product. -/
theorem claim_C5 :
    (∀ (db : DB) (payload : PyDict) (db2 : DB) (c : CommentRow),
      create_comment db payload = .created db2 c →
      ∃ pid, c.product_id = some pid ∧
        user_bought_product_and_finalized db c.user_id pid = true) ∧
    (∀ (db : DB) (payload : PyDict) (uid pid : Int),
      commentUserVal payload ≠ .vNone → commentPidVal payload ≠ .vNone →
      commentCalVal payload ≠ .vNone → commentDescVal payload ≠ .vNone →
      pyInt (commentUserVal payload) = some uid →
      pyInt (normalizeProductId (commentPidVal payload)) = some pid →
      user_bought_product_and_finalized db uid pid = false →
      create_comment db payload = .notVerified db) ∧
    (∀ (db : DB) (payload : PyDict) (db2 : DB) (c : CommentRow),
      create_comment_general db payload = .created db2 c →
      user_has_any_finalized_order db c.user_id = true) := by
  refine ⟨?_, ?_, ?_⟩
  · intro db payload db2 c h
    simp only [create_comment] at h
    split at h
    · exact absurd h (by simp)
    · split at h
      · rename_i uid pid hu hp
        split at h
        · exact absurd h (by simp)
        · rename_i hb
          split at h
          · exact absurd h (by simp)
          · rename_i r hr
            simp only [CommentResult.created.injEq] at h
            obtain ⟨hdb2, hc⟩ := h
            subst hc
            refine ⟨pid, rfl, ?_⟩
            cases hb2 : user_bought_product_and_finalized db uid pid
            · exact absurd hb2 hb
            · rfl
      · exact absurd h (by simp)
  · intro db payload uid pid h1 h2 h3 h4 hu hp hb
    simp only [create_comment]
    rw [if_neg (by
      rintro (hc | hc | hc | hc)
      · exact h1 hc
      · exact h2 hc
      · exact h3 hc
      · exact h4 hc)]
    split
    · rename_i uid2 pid2 hu2 hp2
      rw [hu] at hu2
      rw [hp] at hp2
      have huu : uid2 = uid := (Option.some.injEq _ _).mp hu2.symm
      have hpp : pid2 = pid := (Option.some.injEq _ _).mp hp2.symm
      subst huu
      subst hpp
      rw [hb]
      simp
    · rename_i hne
      exact (hne uid pid hu hp).elim
  · intro db payload db2 c h
    simp only [create_comment_general] at h
    split at h
    · exact absurd h (by simp)
    · split at h
      · rename_i uid hu
        split at h
        · exact absurd h (by simp)
        · rename_i hok
          split at h
          · exact absurd h (by simp)
          · rename_i r hr
            simp only [CommentResult.created.injEq] at h
            obtain ⟨hdb2, hc⟩ := h
            subst hc
            cases hb2 : user_has_any_finalized_order db uid
            · exact absurd hb2 hok
            · rfl
      · exact absurd h (by simp)

/-- C5 witness: user 7 has no orders in the empty database, so the concrete
review request is answered 406 with the state unchanged. -/
theorem claim_C5_witness :
    create_comment emptyDB reviewPayload = .notVerified emptyDB :=
  claim_C5.2.1 emptyDB reviewPayload 7 3 (by decide) (by decide) (by decide)
    (by decide) (by decide) (by decide) (by decide)

/-- C6: every successfully created Order is inserted with status `pendiente`
(the spec's `pending`, one of the three meaningful status values), carries
exactly the payload-supplied shipping/contact fields, and, when a receipt was
uploaded, the uploaded receipt URL. -/
theorem claim_C6 (db : DB) (req : CreateReq) (url : String) (filas : List Fila)
    (db2 : DB) (oid : Int) (tr : List Ev)
    (h : create_order db req url = (.created filas db2 oid, tr)) :
    ∃ o ∈ db2.orders, o.id = oid ∧
      o.status = .vStr pendingStatus ∧
      pendingStatus ∈ meaningfulStatuses ∧
      o.nombre = pyGet req.fields "nombre" ∧
      o.apellido = pyGet req.fields "apellido" ∧
      o.direccion = pyGet req.fields "direccion" ∧
      o.email = pyGet req.fields "email" ∧
      o.telefono = pyGet req.fields "telefono" ∧
      o.descripcion = pyGet req.fields "descripcion" ∧
      (∀ fl, req.transfer = some fl → o.image_transaccion = some url) := by
  obtain ⟨img, pre, its, hctx, _, _, hupload⟩ := create_order_created h
  obtain ⟨u, t, hu, ht, hbuild, hoid, hdb2⟩ := createOrderTx_ok hctx
  subst hdb2
  refine ⟨mkNewOrder db u t req.fields img, ?_, by rw [hoid]; rfl, rfl,
    by decide, rfl, rfl, rfl, rfl, rfl, rfl, ?_⟩
  · show _ ∈ db.orders ++ [mkNewOrder db u t req.fields img]
    exact List.mem_append_right _ (List.mem_singleton.mpr rfl)
  · intro fl hfl
    rcases hupload with ⟨htr, _, _⟩ | ⟨fl2, _, _, hurl, himg, _⟩
    · rw [htr] at hfl
      exact absurd hfl (by simp)
    · subst himg
      show (if url = "" then none else some url) = some url
      rw [if_neg hurl]

/-- C6 witness: the receipt-carrying request creates order 1 with status
`pendiente` in the concrete database. -/
theorem claim_C6_witness :
    ∃ o ∈ (create_order dbWithProduct reqWithReceipt "http://u/r.png").1.finalDb.orders,
      o.id = 1 ∧ o.status = .vStr pendingStatus := by
  obtain ⟨o, ho, hid, hst, _⟩ := claim_C6 dbWithProduct reqWithReceipt "http://u/r.png"
    ((create_order dbWithProduct reqWithReceipt "http://u/r.png").1.rows)
    ((create_order dbWithProduct reqWithReceipt "http://u/r.png").1.finalDb) 1
    ((create_order dbWithProduct reqWithReceipt "http://u/r.png").2)
    (by decide)
  exact ⟨o, ho, hid, hst⟩

/-- C7: read-model parity. The flattened rows returned by a successful
`POST /order` are exactly the rows a subsequent `GET /orders/{id}` returns
for the new order on the unmodified post-commit state. -/
theorem claim_C7 (db : DB) (req : CreateReq) (url : String) (filas : List Fila)
    (db2 : DB) (oid : Int) (tr : List Ev) (hwf : db.wf = true)
    (h : create_order db req url = (.created filas db2 oid, tr)) :
    get_order db2 oid = .ok filas := by
  obtain ⟨img, pre, its, hctx, hfilas, _, _⟩ := create_order_created h
  obtain ⟨u, t, hu, ht, hbuild, hoid, hdb2⟩ := createOrderTx_ok hctx
  subst hdb2
  subst hoid
  have hget := @get_order_of_commit db hwf
    (mkNewOrder db u t req.fields img) its rfl
  rw [hget, hfilas]
  have hrows := build_filter_eq_rows
    (commitOrderTx db (mkNewOrder db u t req.fields img) its)
    (mkNewOrder db u t req.fields img)
    (commit_orders_pairwise hwf _ its rfl)
    (by
      show _ ∈ db.orders ++ [mkNewOrder db u t req.fields img]
      exact List.mem_append_right _ (List.mem_singleton.mpr rfl))
  rw [show (fun f : Fila => f.id == db.nextOrderId) =
      (fun f : Fila => f.id == (mkNewOrder db u t req.fields img).id) from rfl]
  rw [hrows]
  have hfun : filaOfItemGet (commitOrderTx db (mkNewOrder db u t req.fields img) its)
      (mkNewOrder db u t req.fields img) =
      filaOfItemBuild (commitOrderTx db (mkNewOrder db u t req.fields img) its)
      (mkNewOrder db u t req.fields img) :=
    funext (fun it => filaGet_eq_filaBuild _ _ it)
  rw [hfun]

/-- C7 witness: parity holds on the concrete worked example. -/
theorem claim_C7_witness :
    get_order (create_order dbWithProduct reqExample "").1.finalDb 1 =
      .ok ((create_order dbWithProduct reqExample "").1.rows) :=
  claim_C7 dbWithProduct reqExample ""
    ((create_order dbWithProduct reqExample "").1.rows)
    ((create_order dbWithProduct reqExample "").1.finalDb) 1
    ((create_order dbWithProduct reqExample "").2)
    (by decide) (by decide)

/-- C8 counterexample: the rows of the 201 response for the worked example
carry the stored status `"pendiente"` verbatim — its first letter is not
capitalized, refuting the capitalization claim. -/
theorem claim_C8_counterexample :
    ∃ f ∈ (create_order dbWithProduct reqExample "").1.rows,
      statusCapitalized f.status = false := by decide

/-- C8 (amended): the read model copies `Order.status` into the `status`
field of every flattened row verbatim; no capitalization or any other
presentation transformation is applied. -/
theorem claim_C8 (db : DB) (f : Fila) (hf : f ∈ build_order_items_response db) :
    ∃ o ∈ db.orders, f.id = o.id ∧ f.status = o.status := by
  unfold build_order_items_response at hf
  rcases List.mem_flatMap.mp hf with ⟨o, ho, hfo⟩
  rcases List.mem_map.mp hfo with ⟨it, hit, hfit⟩
  subst hfit
  exact ⟨o, (ordersByCreatedDesc_perm db.orders).mem_iff.mp ho, rfl, rfl⟩

/-- C8 witness: the row built for the finalized order reports that order's
stored status unchanged. -/
theorem claim_C8_witness :
    ∃ o ∈ dbFinalized.orders,
      (filaOfItemBuild dbFinalized orderFinalized itemFinalized).id = o.id ∧
      (filaOfItemBuild dbFinalized orderFinalized itemFinalized).status = o.status :=
  claim_C8 dbFinalized (filaOfItemBuild dbFinalized orderFinalized itemFinalized)
    (by decide)

theorem finishCreate_trace (db : DB) (uid price : PyVal) (fields : PyDict)
    (img : Option String) (pre : List Ev) (lines : List PyDict) :
    ∃ rest, (finishCreate db uid price fields img pre lines).2 =
      pre ++ (Ev.txOpen :: rest) ∧ ∀ u, Ev.upload u ∉ (Ev.txOpen :: rest) := by
  unfold finishCreate
  split
  · refine ⟨[Ev.txRollback], rfl, ?_⟩
    intro u
    simp
  · rename_i db2 oid its hctx
    refine ⟨Ev.insertOrder oid ::
      (its.map (fun it => Ev.insertItem it.id) ++ [Ev.txCommit]), ?_, ?_⟩
    · simp
    · intro u
      simp only [List.mem_cons, List.mem_append, List.mem_map, List.mem_singleton]
      rintro (h | h | ⟨it, _, h⟩ | h) <;> exact absurd h (by simp)

theorem create_order_trace (db : DB) (req : CreateReq) (url : String) :
    (create_order db req url).2 = [] ∨
    (∃ rest, (create_order db req url).2 = Ev.txOpen :: rest ∧
      ∀ u, Ev.upload u ∉ Ev.txOpen :: rest) ∨
    (∃ rest, (create_order db req url).2 = Ev.upload url :: Ev.txOpen :: rest ∧
      ∀ u, Ev.upload u ∉ Ev.txOpen :: rest) := by
  simp only [create_order]
  split
  · left; rfl
  · split
    · obtain ⟨rest, he, hn⟩ := finishCreate_trace db (resolveUserId req.fields)
        (resolvePriceOrder req.fields) req.fields none [] (resolveProducts req)
      right; left
      exact ⟨rest, by rw [he]; rfl, hn⟩
    · split
      · split
        · left; rfl
        · obtain ⟨rest, he, hn⟩ := finishCreate_trace db (resolveUserId req.fields)
            (resolvePriceOrder req.fields) req.fields (some url)
            [Ev.upload url] (resolveProducts req)
          right; right
          exact ⟨rest, by rw [he]; rfl, hn⟩
      · left; rfl

/-- C9: side-effect ordering. In every create-order request the receipt
upload event (when any) strictly precedes the transaction-open event in the
request's trace; and a committed Order that references a receipt URL can only
do so because exactly that URL was uploaded during the request — a committed
Order never references a receipt file that was not uploaded. -/
theorem claim_C9 (db : DB) (req : CreateReq) (url : String) (hwf : db.wf = true) :
    (∀ i j u, ((create_order db req url).2).get? i = some (.upload u) →
      ((create_order db req url).2).get? j = some .txOpen → i < j) ∧
    (∀ filas db2 oid tr, create_order db req url = (.created filas db2 oid, tr) →
      ∀ o ∈ db2.orders, o.id = oid → ∀ u2, o.image_transaccion = some u2 →
        Ev.upload u2 ∈ tr) := by
  constructor
  · intro i j u hi hj
    rcases create_order_trace db req url with h0 | ⟨rest, he, hn⟩ | ⟨rest, he, hn⟩
    · rw [h0] at hi
      simp [List.get?] at hi
    · rw [he] at hi
      exact absurd (mem_of_index _ _ _ hi) (hn u)
    · rw [he] at hi hj
      cases i with
      | zero =>
        cases j with
        | zero => simp [List.get?] at hj
        | succ k => exact Nat.succ_pos k
      | succ k =>
        simp only [List.get?] at hi
        exact absurd (mem_of_index _ _ _ hi) (hn u)
  · intro filas db2 oid tr h o ho hid u2 himg
    obtain ⟨img, pre, its, hctx, _, htr, hupload⟩ := create_order_created h
    obtain ⟨u, t, hu, ht, hbuild, hoid, hdb2⟩ := createOrderTx_ok hctx
    subst hdb2
    rcases List.mem_append.mp ho with hold | hnew
    · exfalso
      have := wf_orders_lt hwf o hold
      rw [hid, hoid] at this
      exact lt_irrefl _ this
    · have hoeq : o = mkNewOrder db u t req.fields img := List.mem_singleton.mp hnew
      subst hoeq
      rcases hupload with ⟨_, himgn, _⟩ | ⟨fl, _, _, hurl, himgs, hpre⟩
      · subst himgn
        exact absurd himg (by simp [mkNewOrder])
      · subst himgs
        have : (if url = "" then none else some url) = some u2 := himg
        rw [if_neg hurl] at this
        have hu2 : url = u2 := (Option.some.injEq _ _).mp this
        subst hu2
        rw [htr, hpre]
        simp

/-- C9 witness: in the concrete receipt-carrying run the upload event sits at
index 0, the transaction opens at index 1, and the committed order's receipt
URL was indeed uploaded. -/
theorem claim_C9_witness :
    (0 : Nat) < 1 ∧
    Ev.upload "http://u/r.png" ∈
      (create_order dbWithProduct reqWithReceipt "http://u/r.png").2 := by
  have hc := claim_C9 dbWithProduct reqWithReceipt "http://u/r.png" (by decide)
  refine ⟨hc.1 0 1 "http://u/r.png" (by decide) (by decide), ?_⟩
  exact hc.2 ((create_order dbWithProduct reqWithReceipt "http://u/r.png").1.rows)
    ((create_order dbWithProduct reqWithReceipt "http://u/r.png").1.finalDb) 1
    ((create_order dbWithProduct reqWithReceipt "http://u/r.png").2)
    (by decide)
    (mkNewOrder dbWithProduct 7 40 reqWithReceipt.fields (some "http://u/r.png"))
    (by decide) (by decide) "http://u/r.png" (by decide)

/-- C10 counterexample: both the user id and the total are present but falsy
(value 0 under the final aliases `user` / `total`), yet the request is NOT
rejected — Python `or` returns the last operand unconditionally, `0 is None`
is false, and an Order is created with user id 0 and total 0. -/
theorem claim_C10_counterexample :
    hasKey reqFalsyAliases.fields "user" = true ∧
    truthy (pyGet reqFalsyAliases.fields "user") = false ∧
    hasKey reqFalsyAliases.fields "total" = true ∧
    truthy (pyGet reqFalsyAliases.fields "total") = false ∧
    (create_order emptyDB reqFalsyAliases "").1.isCreated = true ∧
    (create_order emptyDB reqFalsyAliases "").1.finalDb.orders.map
      (fun o => (o.user_id, o.total)) = [(0, 0)] := by decide

/-- C10 (amended): field resolution across the aliases uses truthiness, so a
falsy value in a non-final alias (`user_id`/`userId`, resp.
`price_order`/`price`) falls through exactly as if the key were absent — but
the chain returns the final alias (`user` / `total`) unconditionally, so a
falsy non-`None` value there passes the `is None` validation and the order is
created. The request is rejected with 400 (and no row is created) precisely
when a resolved field is `None` or the line list is empty. -/
theorem claim_C10 (db : DB) (req : CreateReq) (url : String) (d : PyDict) :
    ((truthy (pyGet d "user_id") = false ∧ truthy (pyGet d "userId") = false) →
      resolveUserId d = pyGet d "user") ∧
    ((truthy (pyGet d "price_order") = false ∧ truthy (pyGet d "price") = false) →
      resolvePriceOrder d = pyGet d "total") ∧
    ((resolveUserId req.fields = .vNone ∨ resolvePriceOrder req.fields = .vNone ∨
      resolveProducts req = []) →
      create_order db req url = (.badRequest db, [])) := by
  refine ⟨?_, ?_, create_order_badRequest⟩
  · rintro ⟨h1, h2⟩
    unfold resolveUserId pyOr
    rw [h1, h2]
    simp
  · rintro ⟨h1, h2⟩
    unfold resolvePriceOrder pyOr
    rw [h1, h2]
    simp

/-- C10 witness: on the falsy-alias payload both resolutions land on the
final alias, and a request lacking every user-id alias is rejected 400 with
the state unchanged. -/
theorem claim_C10_witness :
    resolveUserId reqFalsyAliases.fields = pyGet reqFalsyAliases.fields "user" ∧
    resolvePriceOrder reqFalsyAliases.fields =
      pyGet reqFalsyAliases.fields "total" ∧
    create_order emptyDB reqMissingUser "" = (.badRequest emptyDB, []) := by
  have hc := claim_C10 emptyDB reqMissingUser "" reqFalsyAliases.fields
  exact ⟨hc.1 ⟨by decide, by decide⟩, hc.2.1 ⟨by decide, by decide⟩,
    hc.2.2 (Or.inl (by decide))⟩
